import Mathlib

/-!
Verification of the news-sentiment windowed-join component of the
XAUUSD_TRADING repository (`src/src/features/news_features.py`,
class `NewsSentimentFeatures`).

Modelling conventions:
* a pandas timestamp is wall-clock time in minutes together with an
  optional UTC offset in minutes (`none` = timezone-naive);
* pandas compares two timestamps of equal awareness by absolute instant
  (wall minus offset) when aware, and by wall clock when naive; both are
  the `key` below since a naive timestamp has offset 0;
* a pandas datetime64 column carries one timezone for the whole column,
  so a news frame holds one optional offset plus per-event wall clocks;
* polarities are rationals (the float arithmetic performed here is exact
  on the small decimal inputs of interest, and the spec's statements are
  arithmetic, not rounding, statements);
* the sample standard deviation is modelled by its square (the variance),
  since the square root is irrational: squaring preserves zero and order,
  which is all the claims need.
-/

namespace NewsFeatures

/-- A pandas-style timestamp: wall-clock minutes plus optional UTC offset
in minutes; `tz = none` models a naive timestamp. -/
structure Timestamp where
  wall : Int
  tz : Option Int
deriving DecidableEq

/-- The value pandas orders timestamps of equal awareness by: absolute
instant (wall minus offset) for aware, wall clock for naive. -/
def Timestamp.key (t : Timestamp) : Int := t.wall - t.tz.getD 0

/-- One news event row: wall-clock timestamp in minutes (the column's
timezone lives on the frame), polarity, and sentiment label. -/
structure Event where
  wall : Int
  polarity : ℚ
  sentiment : String
deriving DecidableEq

/-- A loaded news frame: the timestamp column's single optional timezone
offset and the event rows in order. -/
structure NewsFrame where
  tz : Option Int
  events : List Event
deriving DecidableEq

/-- The timestamp of an event, as a full `Timestamp` carrying the news
column's timezone. -/
def Event.ts (newsTz : Option Int) (e : Event) : Timestamp :=
  { wall := e.wall, tz := newsTz }

/-- Lines 67-75 of `aggregate_sentiment`: if the news column is tz-aware
and the query timestamp is naive, the query is localized to UTC (offset 0,
wall clock kept); if the news column is naive and the query is aware, the
query's timezone is removed (`tz_localize(None)`, wall clock kept);
otherwise the query is unchanged. -/
def normalizeQuery (newsTz : Option Int) (t : Timestamp) : Timestamp :=
  match newsTz with
  | some _ => if t.tz = none then { t with tz := some 0 } else t
  | none => if t.tz = none then t else { t with tz := none }

/-- Lines 77-82 of `aggregate_sentiment`: `start_time = timestamp -
timedelta(hours=window_hours)` (subtracting a timedelta moves the instant,
keeping the offset), then the mask `(ts >= start_time) & (ts <= timestamp)`.
A `none` query models pandas NaT, every comparison with which is False,
so the selection is empty. -/
def windowEvents (news : NewsFrame) (query : Option Timestamp)
    (windowHours : Int) : List Event :=
  match query with
  | none => []
  | some q =>
    let t := normalizeQuery news.tz q
    let start : Timestamp := { t with wall := t.wall - windowHours * 60 }
    news.events.filter fun e =>
      decide (start.key ≤ (e.ts news.tz).key) &&
      decide ((e.ts news.tz).key ≤ t.key)

/-- The aggregate returned by `aggregate_sentiment` (the
`sentiment_std` entry is modelled separately by `sentiment_std_sq`). -/
structure Snapshot where
  news_count : Nat
  sentiment_avg : ℚ
  sentiment_sum : ℚ
  sentiment_max : ℚ
  sentiment_min : ℚ
  positive_count : Nat
  negative_count : Nat
  neutral_count : Nat
  positive_ratio : ℚ
  negative_ratio : ℚ
deriving DecidableEq

/-- Lines 84-97: the dict returned for an empty window. -/
def zeroSnapshot : Snapshot :=
  { news_count := 0
    sentiment_avg := 0
    sentiment_sum := 0
    sentiment_max := 0
    sentiment_min := 0
    positive_count := 0
    negative_count := 0
    neutral_count := 0
    positive_ratio := 0
    negative_ratio := 0 }

/-- Model of `Series.max()` on a list of polarities (first element seeds the fold;
only used on non-empty windows, 0 is a don't-care seed for `[]`). -/
def listMax : List ℚ → ℚ
  | [] => 0
  | [x] => x
  | x :: y :: t => max x (listMax (y :: t))

/-- Model of `Series.min()` on a list of polarities. -/
def listMin : List ℚ → ℚ
  | [] => 0
  | [x] => x
  | x :: y :: t => min x (listMin (y :: t))

/-- Lines 53-120, `NewsSentimentFeatures.aggregate_sentiment`: normalize
the query timestamp, select the window, and either return the all-zero
dict (empty window) or the statistics of the windowed events. -/
def aggregate_sentiment (news : NewsFrame) (query : Option Timestamp)
    (windowHours : Int) : Snapshot :=
  let w := windowEvents news query windowHours
  if w.length = 0 then zeroSnapshot
  else
    let pol := w.map Event.polarity
    let pos := w.countP fun e => decide (e.sentiment = "positive")
    let neg := w.countP fun e => decide (e.sentiment = "negative")
    let neu := w.countP fun e => decide (e.sentiment = "neutral")
    { news_count := w.length
      sentiment_avg := pol.sum / w.length
      sentiment_sum := pol.sum
      sentiment_max := listMax pol
      sentiment_min := listMin pol
      positive_count := pos
      negative_count := neg
      neutral_count := neu
      positive_ratio := if 0 < w.length then (pos : ℚ) / w.length else 0
      negative_ratio := if 0 < w.length then (neg : ℚ) / w.length else 0 }

/-- The square of the code's `sentiment_std` (line 114:
`polarities.std() if total_count > 1 else 0.0`, and 0.0 from the
empty-window dict). `Series.std()` is the sample standard deviation with
`ddof = 1`; the model keeps its square, the sample variance, since
squaring sends 0 to 0 and preserves order on nonnegatives. -/
def sentiment_std_sq (news : NewsFrame) (query : Option Timestamp)
    (windowHours : Int) : ℚ :=
  let w := windowEvents news query windowHours
  if w.length ≤ 1 then 0
  else
    let pol := w.map Event.polarity
    let m := pol.sum / w.length
    (pol.map fun x => (x - m) ^ 2).sum / ((w.length : ℚ) - 1)

/-- A raw timestamp cell of the price source, before `pd.to_datetime`:
a parsed point in time, a missing value (NaT), or an unparsable string. -/
inductive RawTs
  | val (t : Timestamp)
  | missing
  | unparsable
deriving DecidableEq

/-- Error message used for the `pd.to_datetime` failure model. -/
def parseErr : String := "to_datetime: could not parse timestamp"

/-- The parsed value of a cell that `pd.to_datetime` accepts: a parsed
timestamp passes through, NaT stays missing. -/
def parsedCell : RawTs → Option Timestamp
  | .val t => some t
  | .missing => none
  | .unparsable => none

/-- Model of `pd.to_datetime` over the timestamp column (lines 143 and 145): it
raises on the first unparsable cell — modelled as `Except.error` — and
otherwise yields the parsed column. -/
def toDatetimeCol : List RawTs → Except String (List (Option Timestamp))
  | [] => .ok []
  | c :: cs =>
    match c with
    | .unparsable => .error parseErr
    | c =>
      match toDatetimeCol cs with
      | .error e => .error e
      | .ok ts => .ok (parsedCell c :: ts)

/-- The price frame as this component sees it: the column names and, per
row, the raw timestamp cell. All other cells are carried through untouched
and never inspected by this code, so they are not modelled; `RawTs` is the
row's identity. -/
structure PriceFrame where
  cols : List String
  rows : List RawTs
deriving DecidableEq

/-- One output row: the original row (identified by its raw timestamp
cell) with the snapshots appended for the configured windows, in window
order (empty when the builder bailed out before aggregating). -/
structure OutRow where
  raw : RawTs
  snaps : List Snapshot
deriving DecidableEq

/-- The output frame: its column names and its rows in order. -/
structure OutFrame where
  cols : List String
  rows : List OutRow
deriving DecidableEq

/-- The 11 keys of the snapshot dict, in the order of lines 85-96 and
108-119. -/
def snapshotFields : List String :=
  ["news_count", "sentiment_avg", "sentiment_sum", "sentiment_max",
   "sentiment_min", "sentiment_std", "positive_count", "negative_count",
   "neutral_count", "positive_ratio", "negative_ratio"]

/-- The per-window column namespace of line 168 (`add_prefix`). -/
def windowTag (w : Int) : String := "news_" ++ toString w ++ "h_"

/-- The 11 column names contributed by one window. -/
def windowCols (w : Int) : List String :=
  snapshotFields.map fun f => windowTag w ++ f

/-- The loop of lines 155-171: per window, one snapshot per row, columns
appended after the existing ones; and per row one output row in input
order (`pd.concat(..., axis=1)` on the default aligned index). -/
def buildRows (cols : List String) (raws : List RawTs)
    (ts : List (Option Timestamp)) (news : NewsFrame)
    (windows : List Int) : OutFrame :=
  { cols := cols ++ windows.flatMap windowCols
    rows := List.zipWith
      (fun r t => { raw := r, snaps := windows.map fun w => aggregate_sentiment news t w })
      raws ts }

/-- Lines 122-176, `NewsSentimentFeatures.add_sentiment_features`: if
there is no `timestamp` column but a `time` column, a parsed `timestamp`
column is added; if a `timestamp` column exists it is parsed in place; if
neither exists the function prints an error and returns the input frame
unchanged (no exception). A `pd.to_datetime` failure propagates out of
the whole call. -/
def add_sentiment_features (dfPrice : PriceFrame) (news : NewsFrame)
    (windows : List Int) : Except String OutFrame :=
  if "timestamp" ∉ dfPrice.cols ∧ "time" ∈ dfPrice.cols then
    match toDatetimeCol dfPrice.rows with
    | .error e => .error e
    | .ok ts => .ok (buildRows (dfPrice.cols ++ ["timestamp"]) dfPrice.rows ts news windows)
  else if "timestamp" ∈ dfPrice.cols then
    match toDatetimeCol dfPrice.rows with
    | .error e => .error e
    | .ok ts => .ok (buildRows dfPrice.cols dfPrice.rows ts news windows)
  else
    .ok { cols := dfPrice.cols, rows := dfPrice.rows.map fun r => { raw := r, snaps := [] } }

/-- Lines 213-241, `NewsSentimentFeatures.merge_price_and_news`, with the
CSV load step (I/O) modelled as the already-loaded news frame (a load
failure yields an empty frame, hence the `events = []` branch): an empty
news frame makes the function return the price frame unchanged, skipping
sentiment features entirely; otherwise it builds the sentiment features.
The subsequent momentum step (lines 238-239, modelled at series level by
`sentiment_momentum` and friends below) only appends derived columns and
never removes rows or columns, so it is not repeated here. -/
def merge_price_and_news (dfPrice : PriceFrame) (news : NewsFrame)
    (windows : List Int) : Except String OutFrame :=
  if news.events = [] then
    .ok { cols := dfPrice.cols, rows := dfPrice.rows.map fun r => { raw := r, snaps := [] } }
  else
    add_sentiment_features dfPrice news windows

/-- Model of `Series.diff()` with NaN-propagating subtraction: the first entry is
NaN (`none`), entry `i+1` is `x[i+1] - x[i]`, and any NaN operand makes
the result NaN. -/
def seriesDiff (xs : List (Option ℚ)) : List (Option ℚ) :=
  match xs with
  | [] => []
  | _ :: t =>
    none :: List.zipWith
      (fun prev cur =>
        match prev, cur with
        | some a, some b => some (b - a)
        | _, _ => none)
      xs t

/-- Line 199 of `add_sentiment_momentum`: the momentum column is
`df[avg_col].diff()`, over the window's `sentiment_avg` series in row
order (that series has no NaN, every snapshot being numeric). -/
def sentiment_momentum (avg : List ℚ) : List (Option ℚ) :=
  seriesDiff (avg.map some)

/-- Lines 202-204: the trend column is
`df[avg_col].rolling(window=10, min_periods=1).mean()` — at index `i`,
the mean of the trailing `min (i+1) 10` values, always defined since at
least one observation is present. -/
def sentiment_trend (avg : List ℚ) : List ℚ :=
  (List.range avg.length).map fun i =>
    let w := (avg.take (i + 1)).drop (i + 1 - 10)
    w.sum / w.length

/-- Lines 206-209: the acceleration column is the `diff()` of the
momentum column. -/
def sentiment_acceleration (avg : List ℚ) : List (Option ℚ) :=
  seriesDiff (sentiment_momentum avg)

/-- The window selection exactly as §4.2 of the spec words it, for
comparison with the source's `windowEvents`: strict at the left boundary
(`timestamp - length_hours < E.timestamp <= timestamp`). -/
def specWindowEvents (news : NewsFrame) (q : Timestamp)
    (windowHours : Int) : List Event :=
  let t := normalizeQuery news.tz q
  let start : Timestamp := { t with wall := t.wall - windowHours * 60 }
  news.events.filter fun e =>
    decide (start.key < (e.ts news.tz).key) &&
    decide ((e.ts news.tz).key ≤ t.key)

/-- Concrete two-event news frame (UTC column; a positive event at minute
0 and a negative one at minute 720) used by concrete instances. -/
def c4News : NewsFrame :=
  ⟨some 0, [⟨0, 1/2, "positive"⟩, ⟨720, -1/2, "negative"⟩]⟩

/-! ### Helper lemmas -/

/-- Subtracting a timedelta shifts the comparison key by the same amount. -/
lemma key_sub_hours (t : Timestamp) (wh : Int) :
    ({ t with wall := t.wall - wh * 60 } : Timestamp).key = t.key - wh * 60 := by
  simp [Timestamp.key]
  ring

/-- Membership in the source's window selection, in terms of comparison
keys. -/
lemma mem_windowEvents (news : NewsFrame) (q : Timestamp) (wh : Int) (e : Event) :
    e ∈ windowEvents news (some q) wh ↔
      e ∈ news.events ∧
      (normalizeQuery news.tz q).key - wh * 60 ≤ (e.ts news.tz).key ∧
      (e.ts news.tz).key ≤ (normalizeQuery news.tz q).key := by
  simp [windowEvents, List.mem_filter, key_sub_hours]

/-- Every windowed event is an event of the news frame. -/
lemma windowEvents_subset (news : NewsFrame) (q : Option Timestamp) (wh : Int)
    (e : Event) (he : e ∈ windowEvents news q wh) : e ∈ news.events := by
  cases q with
  | none => simp [windowEvents] at he
  | some q => exact ((mem_windowEvents news q wh e).mp he).1

/-- The three category tallies partition a list whose every element is
labelled positive, negative or neutral. -/
lemma countP_three_split (l : List Event)
    (h : ∀ e ∈ l, e.sentiment = "positive" ∨ e.sentiment = "negative" ∨
      e.sentiment = "neutral") :
    (l.countP fun e => decide (e.sentiment = "positive")) +
      (l.countP fun e => decide (e.sentiment = "negative")) +
      (l.countP fun e => decide (e.sentiment = "neutral")) = l.length := by
  induction l with
  | nil => simp
  | cons a t ih =>
    have ha := h a (by simp)
    have ht := ih fun e he => h e (by simp [he])
    rcases ha with h1 | h1 | h1 <;>
      simp [List.countP_cons, h1, ← ht] <;> omega

/-- The sum of a non-empty list is at most its length times its maximum. -/
lemma sum_le_length_mul_listMax (l : List ℚ) (hl : l ≠ []) :
    l.sum ≤ (l.length : ℚ) * listMax l := by
  induction l with
  | nil => simp at hl
  | cons x t ih =>
    cases t with
    | nil => simp [listMax]
    | cons y s =>
      have h1 := ih (by simp)
      have hM : listMax (y :: s) ≤ max x (listMax (y :: s)) := le_max_right _ _
      have hlen : (0 : ℚ) ≤ ((y :: s).length : ℚ) := by positivity
      calc (x :: y :: s).sum = x + (y :: s).sum := by simp
        _ ≤ max x (listMax (y :: s)) +
            ((y :: s).length : ℚ) * max x (listMax (y :: s)) :=
          add_le_add (le_max_left _ _)
            (h1.trans (mul_le_mul_of_nonneg_left hM hlen))
        _ = ((x :: y :: s).length : ℚ) * listMax (x :: y :: s) := by
          simp [listMax]
          ring

/-- The sum of a non-empty list is at least its length times its minimum. -/
lemma length_mul_listMin_le_sum (l : List ℚ) (hl : l ≠ []) :
    (l.length : ℚ) * listMin l ≤ l.sum := by
  induction l with
  | nil => simp at hl
  | cons x t ih =>
    cases t with
    | nil => simp [listMin]
    | cons y s =>
      have h1 := ih (by simp)
      have hM : min x (listMin (y :: s)) ≤ listMin (y :: s) := min_le_right _ _
      have hlen : (0 : ℚ) ≤ ((y :: s).length : ℚ) := by positivity
      calc ((x :: y :: s).length : ℚ) * listMin (x :: y :: s)
          = min x (listMin (y :: s)) +
            ((y :: s).length : ℚ) * min x (listMin (y :: s)) := by
              simp [listMin]
              ring
        _ ≤ x + (y :: s).sum :=
          add_le_add (min_le_left _ _)
            ((mul_le_mul_of_nonneg_left hM hlen).trans h1)
        _ = (x :: y :: s).sum := by simp

/-- Conversion succeeds on a column with no unparsable cell and yields
the parsed cells. -/
lemma toDatetimeCol_ok (cells : List RawTs)
    (h : ∀ c ∈ cells, c ≠ RawTs.unparsable) :
    toDatetimeCol cells = .ok (cells.map parsedCell) := by
  induction cells with
  | nil => rfl
  | cons c cs ih =>
    have hc := h c (by simp)
    have hcs := ih fun x hx => h x (by simp [hx])
    cases c with
    | val t => simp [toDatetimeCol, hcs]
    | missing => simp [toDatetimeCol, hcs]
    | unparsable => exact absurd rfl hc

/-- Zipping a list with a mapped copy of itself is a map. -/
lemma zipWith_map_self {α β γ : Type} (f : α → β → γ) (g : α → β)
    (l : List α) :
    List.zipWith f l (l.map g) = l.map fun a => f a (g a) := by
  induction l with
  | nil => rfl
  | cons a t ih => simp [ih]

/-- Each window contributes exactly 11 columns. -/
lemma length_flatMap_windowCols (ws : List Int) :
    (ws.flatMap windowCols).length = 11 * ws.length := by
  induction ws with
  | nil => rfl
  | cons w t ih =>
    simp [List.flatMap_cons, ih, windowCols, snapshotFields]
    ring

/-! ### Claims -/

/-- C1, counterexample: the claim (and §4.2 of the spec) says the window
is exclusive at the left boundary, so an event at exactly
`timestamp - length_hours` is excluded. The code's mask (line 79) uses
`>=`: for a single event at minute 0, a query at minute 1440 and a
24-hour window — the event sits exactly on the lower boundary — the code
selects the event, while the spec's strict-left selection would not. -/
theorem c1_boundary_counterexample :
    windowEvents ⟨none, [⟨0, 1/2, "positive"⟩]⟩ (some ⟨1440, none⟩) 24 =
      [⟨0, 1/2, "positive"⟩] ∧
    specWindowEvents ⟨none, [⟨0, 1/2, "positive"⟩]⟩ ⟨1440, none⟩ 24 = [] :=
  ⟨rfl, rfl⟩

/-- C1, amended: the Window Aggregator selects exactly the events `E`
with `timestamp - length_hours <= E.timestamp <= timestamp` (both
boundaries inclusive, compared by pandas keys after normalization): an
event at the query timestamp is counted, and so is an event at exactly
the lower boundary. -/
theorem c1_window_selection_amended (news : NewsFrame) (q : Timestamp)
    (wh : Int) (e : Event) :
    e ∈ windowEvents news (some q) wh ↔
      e ∈ news.events ∧
      (normalizeQuery news.tz q).key - wh * 60 ≤ (e.ts news.tz).key ∧
      (e.ts news.tz).key ≤ (normalizeQuery news.tz q).key :=
  mem_windowEvents news q wh e

/-- C2: timezone-awareness normalization — aware events with a naive
query tag the query as UTC; naive events with an aware query strip the
query's timezone; agreeing sides are left unchanged. And the concrete
scenario: UTC events at minutes 0 (polarity 1/2, positive) and 720
(polarity -1/2, negative), naive query at minute 780, 24-hour window,
yield news_count 2, sentiment_avg 0, positive_count 1, negative_count 1. -/
theorem c2_timezone_normalization :
    (∀ off w : Int, normalizeQuery (some off) ⟨w, none⟩ = ⟨w, some 0⟩) ∧
    (∀ w o : Int, normalizeQuery none ⟨w, some o⟩ = ⟨w, none⟩) ∧
    (∀ w : Int, normalizeQuery none ⟨w, none⟩ = ⟨w, none⟩) ∧
    (∀ off w o : Int, normalizeQuery (some off) ⟨w, some o⟩ = ⟨w, some o⟩) ∧
    aggregate_sentiment
        ⟨some 0, [⟨0, 1/2, "positive"⟩, ⟨720, -1/2, "negative"⟩]⟩
        (some ⟨780, none⟩) 24 =
      ⟨2, 0, 0, 1/2, -1/2, 1, 1, 0, 1/2, 1/2⟩ := by
  refine ⟨fun off w => rfl, fun w o => rfl, fun w => rfl, fun off w o => rfl, ?_⟩
  simp [aggregate_sentiment, windowEvents, normalizeQuery, Event.ts,
    Timestamp.key, listMax, listMin, List.countP_cons, List.countP_nil]
  norm_num

/-- C3: when no event falls in the window, the aggregator returns the
all-zero snapshot (every count 0, every statistic and ratio 0, including
the modelled standard deviation) — total, with no undefined value. -/
theorem c3_empty_window_defaults (news : NewsFrame) (q : Option Timestamp)
    (wh : Int) (h : windowEvents news q wh = []) :
    aggregate_sentiment news q wh = zeroSnapshot ∧
    sentiment_std_sq news q wh = 0 := by
  constructor <;> simp [aggregate_sentiment, sentiment_std_sq, h]

/-- C3 witness: one event far outside a concrete 24-hour window. -/
theorem c3_empty_window_defaults_witness :
    aggregate_sentiment ⟨none, [⟨0, 1/2, "positive"⟩]⟩ (some ⟨10000, none⟩) 24 =
      zeroSnapshot ∧
    sentiment_std_sq ⟨none, [⟨0, 1/2, "positive"⟩]⟩ (some ⟨10000, none⟩) 24 = 0 :=
  c3_empty_window_defaults _ _ _ rfl

/-- C4: assuming every event's category is positive, negative or neutral,
the snapshot satisfies the tally invariant
`positive_count + negative_count + neutral_count = news_count`, both
ratios lie in [0, 1], and `sentiment_min <= sentiment_avg <=
sentiment_max` (for the empty window all three statistics are 0, so the
chain holds there as well; the claim only needs the non-empty case). -/
theorem c4_snapshot_invariants (news : NewsFrame) (q : Option Timestamp)
    (wh : Int)
    (hcat : ∀ e ∈ news.events, e.sentiment = "positive" ∨
      e.sentiment = "negative" ∨ e.sentiment = "neutral") :
    (aggregate_sentiment news q wh).positive_count +
        (aggregate_sentiment news q wh).negative_count +
        (aggregate_sentiment news q wh).neutral_count =
      (aggregate_sentiment news q wh).news_count ∧
    0 ≤ (aggregate_sentiment news q wh).positive_ratio ∧
    (aggregate_sentiment news q wh).positive_ratio ≤ 1 ∧
    0 ≤ (aggregate_sentiment news q wh).negative_ratio ∧
    (aggregate_sentiment news q wh).negative_ratio ≤ 1 ∧
    (aggregate_sentiment news q wh).sentiment_min ≤
      (aggregate_sentiment news q wh).sentiment_avg ∧
    (aggregate_sentiment news q wh).sentiment_avg ≤
      (aggregate_sentiment news q wh).sentiment_max := by
  by_cases hw : (windowEvents news q wh).length = 0
  · simp [aggregate_sentiment, hw, zeroSnapshot]
  · have hne : windowEvents news q wh ≠ [] := by
      intro h
      simp [h] at hw
    have hpolne : (windowEvents news q wh).map Event.polarity ≠ [] := by
      simp [hne]
    have hlenpos : (0 : ℚ) < ((windowEvents news q wh).length : ℚ) := by
      have := Nat.pos_of_ne_zero hw
      exact_mod_cast this
    have hlen : ((windowEvents news q wh).map Event.polarity).length =
        (windowEvents news q wh).length := List.length_map _ _
    refine ⟨?_, ?_, ?_, ?_, ?_, ?_, ?_⟩ <;>
      simp only [aggregate_sentiment, if_neg hw, if_pos (Nat.pos_of_ne_zero hw)]
    · exact countP_three_split _ fun e he =>
        hcat e (windowEvents_subset news q wh e he)
    · positivity
    · rw [div_le_one hlenpos]
      exact_mod_cast List.countP_le_length _
    · positivity
    · rw [div_le_one hlenpos]
      exact_mod_cast List.countP_le_length _
    · rw [le_div_iff₀ hlenpos]
      have := length_mul_listMin_le_sum _ hpolne
      rw [hlen] at this
      linarith
    · rw [div_le_iff₀ hlenpos]
      have := sum_le_length_mul_listMax _ hpolne
      rw [hlen] at this
      linarith

/-- C4 witness: a two-event window with one positive and one negative
event. -/
theorem c4_snapshot_invariants_witness :
    (aggregate_sentiment c4News (some ⟨780, none⟩) 24).positive_count +
        (aggregate_sentiment c4News (some ⟨780, none⟩) 24).negative_count +
        (aggregate_sentiment c4News (some ⟨780, none⟩) 24).neutral_count =
      (aggregate_sentiment c4News (some ⟨780, none⟩) 24).news_count ∧
    0 ≤ (aggregate_sentiment c4News (some ⟨780, none⟩) 24).positive_ratio ∧
    (aggregate_sentiment c4News (some ⟨780, none⟩) 24).positive_ratio ≤ 1 ∧
    0 ≤ (aggregate_sentiment c4News (some ⟨780, none⟩) 24).negative_ratio ∧
    (aggregate_sentiment c4News (some ⟨780, none⟩) 24).negative_ratio ≤ 1 ∧
    (aggregate_sentiment c4News (some ⟨780, none⟩) 24).sentiment_min ≤
      (aggregate_sentiment c4News (some ⟨780, none⟩) 24).sentiment_avg ∧
    (aggregate_sentiment c4News (some ⟨780, none⟩) 24).sentiment_avg ≤
      (aggregate_sentiment c4News (some ⟨780, none⟩) 24).sentiment_max :=
  c4_snapshot_invariants c4News (some ⟨780, none⟩) 24 (by simp [c4News])

/-- Differencing a series with no missing value produces plain
subtractions. -/
lemma zipWith_diff_map_some (l t : List ℚ) :
    List.zipWith
        (fun prev cur =>
          match prev, cur with
          | some a, some b => some (b - a)
          | _, _ => (none : Option ℚ))
        (l.map some) (t.map some) =
      List.zipWith (fun a b => some (b - a)) l t := by
  induction l generalizing t with
  | nil => rfl
  | cons a l ih => cases t <;> simp [ih]

/-- The momentum column over a non-empty average series: NaN first, then
plain consecutive differences. -/
lemma sentiment_momentum_cons (x : ℚ) (t : List ℚ) :
    sentiment_momentum (x :: t) =
      none :: List.zipWith (fun a b => some (b - a)) (x :: t) t := by
  simpa [sentiment_momentum, seriesDiff] using zipWith_diff_map_some (x :: t) t

/-- C5: over the sentiment_avg series in row order — momentum is the
first difference with a missing first entry (not zero); the trend entry
at index i is the mean of the trailing `min (i+1) 10` values, so the
first trend value equals the first average; acceleration (the difference
of momentum) has its first two entries missing; and on the concrete
series [0.1, 0.3, 0.3, -0.2] momentum is [missing, 0.2, 0.0, -0.5]. -/
theorem c5_derived_series (avg : List ℚ) (hne : avg ≠ []) :
    sentiment_momentum avg =
      none :: List.zipWith (fun a b => some (b - a)) avg avg.tail ∧
    (sentiment_momentum avg).head? = some none ∧
    (∀ i, i < avg.length → (sentiment_trend avg).get? i =
      some (((avg.take (i + 1)).drop (i + 1 - 10)).sum /
        (((avg.take (i + 1)).drop (i + 1 - 10)).length : ℚ))) ∧
    (sentiment_trend avg).get? 0 = avg.get? 0 ∧
    (2 ≤ avg.length → (sentiment_acceleration avg).take 2 = [none, none]) ∧
    sentiment_momentum [1/10, 3/10, 3/10, -1/5] =
      [none, some (1/5), some 0, some (-1/2)] := by
  obtain ⟨x, t, rfl⟩ := List.exists_cons_of_ne_nil hne
  have hmom := sentiment_momentum_cons x t
  have htrend : ∀ i, i < (x :: t).length →
      (sentiment_trend (x :: t)).get? i =
        some ((((x :: t).take (i + 1)).drop (i + 1 - 10)).sum /
          ((((x :: t).take (i + 1)).drop (i + 1 - 10)).length : ℚ)) := by
    intro i hi
    have hi' : i < t.length + 1 := by simpa using hi
    simp [sentiment_trend, List.get?_eq_getElem?, List.getElem?_map,
      List.getElem?_range hi']
  refine ⟨hmom, by rw [hmom]; rfl, htrend, ?_, ?_, ?_⟩
  · have h0 := htrend 0 (by simp)
    simpa using h0
  · intro hlen
    obtain ⟨y, s, rfl⟩ : ∃ y s, t = y :: s := by
      cases t with
      | nil => simp at hlen
      | cons y s => exact ⟨y, s, rfl⟩
    rw [sentiment_acceleration, sentiment_momentum_cons, seriesDiff]
    simp
  · simp [sentiment_momentum, seriesDiff]
    norm_num

/-- C5 witness: the concrete series of the claim. -/
theorem c5_derived_series_witness :
    (sentiment_momentum [1/10, 3/10, 3/10, -1/5]).head? = some none ∧
    (sentiment_trend [1/10, 3/10, 3/10, -1/5]).get? 0 = some (1/10) ∧
    (sentiment_acceleration [1/10, 3/10, 3/10, -1/5]).take 2 = [none, none] ∧
    sentiment_momentum [1/10, 3/10, 3/10, -1/5] =
      [none, some (1/5), some 0, some (-1/2)] := by
  obtain ⟨-, h2, -, h4, h5, h6⟩ :=
    c5_derived_series [1/10, 3/10, 3/10, -1/5] (by simp)
  exact ⟨h2, h4.trans rfl, h5 (by simp), h6⟩

/-- C6: with a timestamp column (and parseable timestamp cells, per the
data model's "timestamp: point in time"), the Multi-Window Feature
Builder succeeds and returns a frame with exactly one output row per
input row in the same order, whose columns are the original ones followed
by the 11 prefixed snapshot columns of each window — hence original
column count plus 11 × |windows|. -/
theorem c6_builder_shape (df : PriceFrame) (news : NewsFrame)
    (windows : List Int) (hts : "timestamp" ∈ df.cols)
    (hok : ∀ r ∈ df.rows, r ≠ RawTs.unparsable) (_hw : windows ≠ []) :
    ∃ out : OutFrame,
      add_sentiment_features df news windows = .ok out ∧
      out.rows.length = df.rows.length ∧
      out.rows.map OutRow.raw = df.rows ∧
      out.cols = df.cols ++ windows.flatMap windowCols ∧
      out.cols.length = df.cols.length + 11 * windows.length := by
  refine ⟨buildRows df.cols df.rows (df.rows.map parsedCell) news windows,
    ?_, ?_, ?_, ?_, ?_⟩
  · unfold add_sentiment_features
    rw [if_neg (fun h => h.1 hts), if_pos hts, toDatetimeCol_ok df.rows hok]
  · simp [buildRows, zipWith_map_self]
  · simp [buildRows, zipWith_map_self, List.map_map, Function.comp_def]
  · rfl
  · simp only [buildRows]
    rw [List.length_append, length_flatMap_windowCols]

/-- C6 witness: a one-row price frame with a timestamp column and one
24-hour window. -/
theorem c6_builder_shape_witness :
    ∃ out : OutFrame,
      add_sentiment_features ⟨["timestamp", "close"], [RawTs.val ⟨780, none⟩]⟩
          c4News [24] = .ok out ∧
      out.rows.length = 1 ∧
      out.rows.map OutRow.raw = [RawTs.val ⟨780, none⟩] ∧
      out.cols = ["timestamp", "close"] ++ [(24 : Int)].flatMap windowCols ∧
      out.cols.length = 2 + 11 * 1 :=
  c6_builder_shape ⟨["timestamp", "close"], [RawTs.val ⟨780, none⟩]⟩ c4News [24]
    (by simp) (by simp) (by simp)

/-- C7, counterexample: the claim says a price source without a timestamp
column makes the call fail with an InputSchemaError. The code (lines
146-148) instead prints a message and returns the input frame unchanged:
on a frame with columns [open, close] the builder returns `.ok` with the
very same columns and rows, raising nothing. -/
theorem c7_missing_column_counterexample :
    add_sentiment_features ⟨["open", "close"], [RawTs.val ⟨0, none⟩]⟩
        ⟨none, []⟩ [24] =
      .ok ⟨["open", "close"], [⟨RawTs.val ⟨0, none⟩, []⟩]⟩ :=
  rfl

/-- C7, amended: if the price source has neither a `timestamp` nor a
`time` column, the builder does not raise: it logs an error message and
returns the input frame unchanged — no snapshot columns are added. -/
theorem c7_missing_column_amended (df : PriceFrame) (news : NewsFrame)
    (windows : List Int) (h1 : "timestamp" ∉ df.cols)
    (h2 : "time" ∉ df.cols) :
    add_sentiment_features df news windows =
      .ok ⟨df.cols, df.rows.map fun r => ⟨r, []⟩⟩ := by
  unfold add_sentiment_features
  rw [if_neg (fun h => h2 h.2), if_neg h1]

/-- C7 witness: a frame with a lone `open` column and no rows. -/
theorem c7_missing_column_amended_witness :
    add_sentiment_features ⟨["open"], []⟩ c4News [1, 24] =
      .ok ⟨["open"], []⟩ :=
  c7_missing_column_amended ⟨["open"], []⟩ c4News [1, 24] (by simp) (by simp)

/-- C8, counterexample: the claim says a row whose timestamp cannot be
parsed never makes the aggregation raise and the batch still produces a
row for every input row, with a diagnostic logged. In the code there is
no try/except around the join at all: `pd.to_datetime` (line 145) raises
on the first unparsable cell, so a two-row batch with one unparsable
timestamp aborts wholesale and produces no output rows. -/
theorem c8_malformed_timestamp_counterexample :
    add_sentiment_features
        ⟨["timestamp"], [RawTs.val ⟨0, none⟩, RawTs.unparsable]⟩ c4News [24] =
      .error parseErr :=
  rfl

/-- C8, amended: a row whose timestamp is missing (NaT) after conversion
— the incomparable case — makes every window comparison False, so the
aggregation returns that row's empty-window all-zero defaults without
raising (though no diagnostic is logged); an unparsable timestamp instead
aborts the whole batch at `pd.to_datetime`. -/
theorem c8_malformed_timestamp_amended (news : NewsFrame) (wh : Int) :
    aggregate_sentiment news none wh = zeroSnapshot :=
  rfl

/-- C9, counterexample: the claim says that with an empty event source
every row still receives all-zero-default snapshot columns. The code
(lines 230-232) instead skips sentiment features entirely: merging a
one-row price frame with an empty news frame returns the price frame
unchanged — no snapshot column exists in the output. -/
theorem c9_empty_news_counterexample :
    merge_price_and_news ⟨["timestamp", "close"], [RawTs.val ⟨0, none⟩]⟩
        ⟨none, []⟩ [24] =
      .ok ⟨["timestamp", "close"], [⟨RawTs.val ⟨0, none⟩, []⟩]⟩ ∧
    windowTag 24 ++ "news_count" ∉ (["timestamp", "close"] : List String) := by
  refine ⟨rfl, ?_⟩
  decide

/-- C9, amended: an empty event source is not an error, but the pipeline
returns the price frame unchanged, skipping sentiment features entirely;
no snapshot columns (and hence no zero defaults) are added. -/
theorem c9_empty_news_amended (df : PriceFrame) (windows : List Int)
    (tz : Option Int) :
    merge_price_and_news df ⟨tz, []⟩ windows =
      .ok ⟨df.cols, df.rows.map fun r => ⟨r, []⟩⟩ :=
  rfl

/-- C10: a window holding exactly one event reaches the
`total_count > 1` guard's else-branch, so the (squared) sample standard
deviation is 0 rather than the undefined one-observation statistic — no
NaN for any non-empty window. -/
theorem c10_std_single_event (news : NewsFrame) (q : Option Timestamp)
    (wh : Int) (h : (windowEvents news q wh).length = 1) :
    sentiment_std_sq news q wh = 0 := by
  simp [sentiment_std_sq, h]

/-- C10 witness: a single event inside a concrete 24-hour window. -/
theorem c10_std_single_event_witness :
    sentiment_std_sq ⟨none, [⟨0, 1/2, "positive"⟩]⟩ (some ⟨60, none⟩) 24 = 0 :=
  c10_std_single_event ⟨none, [⟨0, 1/2, "positive"⟩]⟩ (some ⟨60, none⟩) 24 rfl

end NewsFeatures
